import Mathlib

/-!
Verification development for the mitmpac PAC server (`server/main.go`,
`server/middlewares/metrics.go`).

Modelling conventions:
- Go byte strings (`[]byte`, `string` values travelling over the wire,
  header values, bodies, identifiers) are modelled as `List Nat`, each
  element a byte value; `strBytes` converts an ASCII Lean string literal
  into its byte list.
- Go machine words are modelled as `Nat` reduced modulo `2^32` where the
  32-bit arithmetic of `crypto/sha1` matters.
- The mutable global state (the `ConfigsHolder` registry plus the
  `middlewares.ActiveConfigs` prometheus gauge that its methods set) is
  passed explicitly; the Go map is modelled as an association list with
  Go-map lookup/replace/delete semantics.
- Side effects on websocket connections (frames written, connections
  closed, the per-entry mutex, log lines) are modelled as explicit event
  lists returned by the functions that perform them.
-/

namespace Mitmpac

/-- Byte list of an ASCII string literal (for the ASCII literals used by the
server this agrees with Go's UTF-8 bytes). -/
def strBytes (s : String) : List Nat :=
  s.toList.map Char.toNat

/-! SHA-1, following the semantics of Go's `crypto/sha1` as used by
`generateID` (`hash.Write([]byte(secret)); hash.Sum(nil)`). -/

/-- Reduce to a 32-bit word. -/
def w32 (x : Nat) : Nat := x % 4294967296

/-- Left rotation of a 32-bit word by `n` bits. -/
def rotl (n x : Nat) : Nat := w32 ((x <<< n) ||| (x >>> (32 - n)))

/-- Big-endian 32-bit words from a byte list (groups of four bytes). -/
def toWordsBE : List Nat → List Nat
  | b0 :: b1 :: b2 :: b3 :: rest =>
      (((b0 * 256 + b1) * 256 + b2) * 256 + b3) :: toWordsBE rest
  | _ => []

/-- Extend the (reversed) message schedule by `n` further words:
`w[t] = rotl1 (w[t-3] xor w[t-8] xor w[t-14] xor w[t-16])`. -/
def extendWords : Nat → List Nat → List Nat
  | 0, acc => acc
  | n + 1, acc =>
      extendWords n
        (rotl 1 (acc.getD 2 0 ^^^ acc.getD 7 0 ^^^ acc.getD 13 0 ^^^ acc.getD 15 0) :: acc)

/-- The 80-word message schedule of one 64-byte block. -/
def messageSchedule (block : List Nat) : List Nat :=
  (extendWords 64 (toWordsBE block).reverse).reverse

/-- SHA-1 round constant for round `t`. -/
def sha1K (t : Nat) : Nat :=
  if t < 20 then 0x5A827999
  else if t < 40 then 0x6ED9EBA1
  else if t < 60 then 0x8F1BBCDC
  else 0xCA62C1D6

/-- SHA-1 round mixing function for round `t`. -/
def sha1F (t b c d : Nat) : Nat :=
  if t < 20 then (b &&& c) ||| ((b ^^^ 0xFFFFFFFF) &&& d)
  else if t < 40 then b ^^^ c ^^^ d
  else if t < 60 then (b &&& c) ||| (b &&& d) ||| (c &&& d)
  else b ^^^ c ^^^ d

/-- Run the 80 compression rounds over the schedule words. -/
def sha1Rounds : Nat → List Nat → Nat × Nat × Nat × Nat × Nat → Nat × Nat × Nat × Nat × Nat
  | _, [], st => st
  | t, wt :: rest, (a, b, c, d, e) =>
      sha1Rounds (t + 1) rest
        (w32 (rotl 5 a + sha1F t b c d + e + sha1K t + wt), a, rotl 30 b, c, d)

/-- Compress one 64-byte block into the running state. -/
def processBlock (st : Nat × Nat × Nat × Nat × Nat) (block : List Nat) :
    Nat × Nat × Nat × Nat × Nat :=
  match st, sha1Rounds 0 (messageSchedule block) st with
  | (h0, h1, h2, h3, h4), (a, b, c, d, e) =>
      (w32 (h0 + a), w32 (h1 + b), w32 (h2 + c), w32 (h3 + d), w32 (h4 + e))

/-- Initial SHA-1 state. -/
def sha1Init : Nat × Nat × Nat × Nat × Nat :=
  (0x67452301, 0xEFCDAB89, 0x98BADCFE, 0x10325476, 0xC3D2E1F0)

/-- Big-endian bytes of the 64-bit message bit length. -/
def lenBytesBE (bitLen : Nat) : List Nat :=
  [bitLen >>> 56 % 256, bitLen >>> 48 % 256, bitLen >>> 40 % 256, bitLen >>> 32 % 256,
   bitLen >>> 24 % 256, bitLen >>> 16 % 256, bitLen >>> 8 % 256, bitLen % 256]

/-- Merkle–Damgård padding: `0x80`, zeros to 56 mod 64, 8-byte bit length. -/
def sha1Pad (msg : List Nat) : List Nat :=
  msg ++ 128 :: List.replicate ((120 - (msg.length + 1) % 64) % 64) 0
      ++ lenBytesBE (8 * msg.length)

/-- Split a byte list into consecutive 64-byte blocks (structural recursion
on a fuel that bounds the number of blocks). -/
def chunks64Aux : Nat → List Nat → List (List Nat)
  | 0, _ => []
  | _, [] => []
  | fuel + 1, b :: rest =>
      (b :: rest).take 64 :: chunks64Aux fuel ((b :: rest).drop 64)

/-- Split a byte list into consecutive 64-byte blocks. -/
def chunks64 (l : List Nat) : List (List Nat) :=
  chunks64Aux l.length l

/-- Serialize one state word to four big-endian bytes. -/
def wordBytesBE (w : Nat) : List Nat :=
  [w >>> 24 % 256, w >>> 16 % 256, w >>> 8 % 256, w % 256]

/-- The 20 digest bytes of a final state. -/
def digestBytes : Nat × Nat × Nat × Nat × Nat → List Nat
  | (h0, h1, h2, h3, h4) =>
      wordBytesBE h0 ++ wordBytesBE h1 ++ wordBytesBE h2 ++ wordBytesBE h3 ++ wordBytesBE h4

/-- SHA-1 digest (20 bytes) of a byte list. -/
def sha1 (msg : List Nat) : List Nat :=
  digestBytes ((chunks64 (sha1Pad msg)).foldl processBlock sha1Init)

/-! Lowercase hex encoding, following Go's `encoding/hex.EncodeToString`
(`hextable = "0123456789abcdef"`, emitting `hextable[v>>4]` then
`hextable[v&0x0f]` per input byte). -/

/-- The byte values of the hex alphabet `"0123456789abcdef"`. -/
def hexTableBytes : List Nat := strBytes "0123456789abcdef"

/-- Index into the hex alphabet (`48` is the byte of the digit zero; the
default arm is never reached for the nibble values actually passed). -/
def hexTableGet (n : Nat) : Nat :=
  match n with
  | 0 => 48 | 1 => 49 | 2 => 50 | 3 => 51 | 4 => 52 | 5 => 53 | 6 => 54 | 7 => 55
  | 8 => 56 | 9 => 57 | 10 => 97 | 11 => 98 | 12 => 99 | 13 => 100 | 14 => 101
  | 15 => 102 | _ => 48

/-- Lowercase hex encoding of a byte list, as bytes of the ASCII result. -/
def hexEncodeToBytes : List Nat → List Nat
  | [] => []
  | b :: rest => hexTableGet (b / 16) :: hexTableGet (b % 16) :: hexEncodeToBytes rest

/-- `generateID` from the source: lowercase hex of the SHA-1 digest of the
secret's bytes. -/
def generateID (secret : List Nat) : List Nat :=
  hexEncodeToBytes (sha1 secret)

/-! The registry data model (`ConfigHolder`, `ConfigsHolder`) and its
operations `add`, `get`, `delete`, plus the gauge they set. -/

/-- One stored entry: the uploaded content bytes and the optionally attached
websocket connection, modelled as an opaque handle (`conn *websocket.Conn`
is `nil` iff the option is `none`). The entry's `sync.Mutex` has no state to
model; its acquisition shows up as events of `sendMessageToSocket`. -/
structure ConfigHolder where
  content : List Nat
  conn : Option Nat
deriving DecidableEq, Repr

/-- The registry struct: the Go map modelled as an association list without
duplicate keys, plus the `activeConfigs` counter (a Go `int`, so `Int`). -/
structure ConfigsHolder where
  configs : List (List Nat × ConfigHolder)
  activeConfigs : Int
deriving DecidableEq, Repr

/-- The server's registry-relevant mutable state: the `ConfigsHolder` and the
current value of the `middlewares.ActiveConfigs` prometheus gauge that the
registry methods set via `ActiveConfigs.Set(float64(ch.activeConfigs))`. -/
structure ServerState where
  holder : ConfigsHolder
  activeConfigsGauge : Int
deriving DecidableEq, Repr

/-- Go map read `ch.configs[id]`. -/
def lookupConfig (m : List (List Nat × ConfigHolder)) (k : List Nat) : Option ConfigHolder :=
  match m with
  | [] => none
  | (k', v) :: rest => if k' = k then some v else lookupConfig rest k

/-- Go map write `ch.configs[id] = config` (replace if present, else add). -/
def storeConfig (m : List (List Nat × ConfigHolder)) (k : List Nat) (v : ConfigHolder) :
    List (List Nat × ConfigHolder) :=
  match m with
  | [] => [(k, v)]
  | (k', v') :: rest => if k' = k then (k, v) :: rest else (k', v') :: storeConfig rest k v

/-- Go builtin `delete(ch.configs, id)` (no-op when the key is absent). -/
def eraseConfig (m : List (List Nat × ConfigHolder)) (k : List Nat) :
    List (List Nat × ConfigHolder) :=
  match m with
  | [] => []
  | (k', v') :: rest => if k' = k then rest else (k', v') :: eraseConfig rest k

/-- Observable side effects on websocket connections and the log. -/
inductive Event where
  | frameSent (conn : Nat) (msg : List Nat)
  | connClosed (conn : Nat)
  | lockAcquired
  | lockReleased
  | logged (msg : List Nat)
deriving DecidableEq, Repr

/-- The error message of `ConfigsHolder.add`. -/
def activeConfigErr : List Nat :=
  strBytes "Active config for the same secret already exists"

/-- State after `NewConfigsHolder()` (empty map, zero counter, gauge at its
initial value zero). -/
def initialServerState : ServerState :=
  { holder := { configs := [], activeConfigs := 0 }, activeConfigsGauge := 0 }

/-- `ConfigsHolder.add` from the source: reject when an entry for `id`
exists and has a non-nil `conn`; otherwise write the map (insert or replace),
increment `activeConfigs` only when the entry is brand new, and set the
gauge to the counter. On the error path nothing is written. -/
def add (st : ServerState) (id : List Nat) (config : ConfigHolder) :
    Except (List Nat) ServerState :=
  match lookupConfig st.holder.configs id with
  | some existing =>
      if existing.conn.isSome then
        .error activeConfigErr
      else
        let holder' : ConfigsHolder :=
          { configs := storeConfig st.holder.configs id config,
            activeConfigs := st.holder.activeConfigs }
        .ok { holder := holder', activeConfigsGauge := holder'.activeConfigs }
  | none =>
      let holder' : ConfigsHolder :=
        { configs := storeConfig st.holder.configs id config,
          activeConfigs := st.holder.activeConfigs + 1 }
      .ok { holder := holder', activeConfigsGauge := holder'.activeConfigs }

/-- `ConfigsHolder.get` from the source: pure lookup, no mutation. -/
def get (st : ServerState) (id : List Nat) : Option ConfigHolder :=
  lookupConfig st.holder.configs id

/-- `ConfigsHolder.delete` from the source: close the entry's connection if
one is attached, delete the map key, decrement `activeConfigs`
(unconditionally, even when the key was absent) and set the gauge. -/
def delete (st : ServerState) (id : List Nat) : ServerState × List Event :=
  let closeEvents :=
    match lookupConfig st.holder.configs id with
    | some holder =>
        match holder.conn with
        | some c => [Event.connClosed c]
        | none => []
    | none => []
  let holder' : ConfigsHolder :=
    { configs := eraseConfig st.holder.configs id,
      activeConfigs := st.holder.activeConfigs - 1 }
  ({ holder := holder', activeConfigsGauge := holder'.activeConfigs }, closeEvents)

/-! The HTTP handlers of `server/main.go`. -/

/-- An HTTP response as the handlers build it: status code, the
`Content-Type` header if the handler set one, body bytes. -/
structure HttpResponse where
  status : Nat
  contentType : Option (List Nat)
  body : List Nat
deriving DecidableEq, Repr

/-- Response written by Go's `http.Error` (plain-text content type, message
plus a newline as the body). -/
def httpError (msg : List Nat) (code : Nat) : HttpResponse :=
  { status := code,
    contentType := some (strBytes "text/plain; charset=utf-8"),
    body := msg ++ strBytes "\n" }

/-- Byte list of the method string checked by `uploadHandler`. -/
def postMethod : List Nat := strBytes "POST"

/-- `uploadHandler` from the source. `bodyRead` models the result of
`io.ReadAll(r.Body)`; `secret` models `r.Header.Get("X-Secret")`, the empty
list being the missing-header case. Returns the response and the registry
state after the call. -/
def uploadHandler (st : ServerState) (method : List Nat)
    (bodyRead : Except Unit (List Nat)) (secret : List Nat) :
    HttpResponse × ServerState :=
  if method ≠ postMethod then
    (httpError (strBytes "Invalid method, use POST") 400, st)
  else
    match bodyRead with
    | .error _ => (httpError (strBytes "Failed to read request body") 500, st)
    | .ok content =>
        if secret = [] then
          (httpError (strBytes "Missing X-Secret header") 400, st)
        else
          let id := generateID secret
          match add st id { content := content, conn := none } with
          | .error e => (httpError e 409, st)
          | .ok st' => ({ status := 200, contentType := none, body := id }, st')

/-- The attach phase of `wsHandler` from the source (everything after a
successful upgrade and before the read loop): check the secret, derive the
id, and either set the entry's `conn` field (returning `true`: the handler
proceeds to its read loop) or send one explanatory text frame and close the
connection (returning `false`). -/
def wsAttach (st : ServerState) (secret : List Nat) (conn : Nat) :
    ServerState × List Event × Bool :=
  if secret = [] then
    (st, [Event.frameSent conn (strBytes "Missing X-Secret header"), Event.connClosed conn],
      false)
  else
    let id := generateID secret
    match lookupConfig st.holder.configs id with
    | some holder =>
        ({ st with
            holder := { st.holder with
              configs := storeConfig st.holder.configs id { holder with conn := some conn } } },
          [], true)
    | none =>
        (st, [Event.frameSent conn (strBytes "Invalid X-Secret"), Event.connClosed conn], false)

/-- `sendMessageToSocket` from the source: no-op when `conn` is nil;
otherwise take the entry's mutex, write one text frame, log on failure
(`writeOk = false` models a failing `WriteMessage`), release the mutex. -/
def sendMessageToSocket (holder : ConfigHolder) (message : List Nat) (writeOk : Bool) :
    List Event :=
  match holder.conn with
  | none => []
  | some c =>
      [Event.lockAcquired, Event.frameSent c message]
        ++ (if writeOk then [] else [Event.logged (strBytes "Failed to send message to websocket")])
        ++ [Event.lockReleased]

/-! `pacHandlerWithID` and `getClientIP`, with the pieces of the Go standard
library they use (`strings.TrimPrefix`, `net.SplitHostPort`). -/

/-- Go `strings.HasPrefix` on byte lists. -/
def hasPrefixBytes : List Nat → List Nat → Bool
  | [], _ => true
  | _ :: _, [] => false
  | p :: ps, x :: xs => p = x && hasPrefixBytes ps xs

/-- Go `strings.TrimPrefix` on byte lists. -/
def trimPrefixBytes (s pre : List Nat) : List Nat :=
  if hasPrefixBytes pre s then s.drop pre.length else s

/-- Index of the first occurrence of byte `b`, Go's `byteIndex`. -/
def firstIndexOf (s : List Nat) (b : Nat) : Option Nat :=
  match s with
  | [] => none
  | x :: rest => if x = b then some 0 else (firstIndexOf rest b).map (· + 1)

/-- Index of the last occurrence of byte `b`, Go's `last`. -/
def lastIndexOfAux (s : List Nat) (b : Nat) (i : Nat) (best : Option Nat) : Option Nat :=
  match s with
  | [] => best
  | x :: rest => lastIndexOfAux rest b (i + 1) (if x = b then some i else best)

/-- Index of the last occurrence of byte `b` in `s`. -/
def lastIndexOf (s : List Nat) (b : Nat) : Option Nat :=
  lastIndexOfAux s b 0 none

/-- Go `net.SplitHostPort` on byte lists (byte 58 is the colon, 91 and 93
the square brackets; error strings are the Go ones with the quoted
characters unquoted). -/
def splitHostPort (hostport : List Nat) : Except (List Nat) (List Nat × List Nat) :=
  match lastIndexOf hostport 58 with
  | none => .error (strBytes "missing port in address")
  | some i =>
      let hostJK : Except (List Nat) (List Nat × Nat × Nat) :=
        if hostport.headD 0 = 91 then
          match firstIndexOf hostport 93 with
          | none => .error (strBytes "missing ] in address")
          | some en =>
              if en + 1 = hostport.length then .error (strBytes "missing port in address")
              else if en + 1 = i then .ok ((hostport.drop 1).take (en - 1), 1, en + 1)
              else if hostport.getD (en + 1) 0 = 58 then
                .error (strBytes "too many colons in address")
              else .error (strBytes "missing port in address")
        else
          let host := hostport.take i
          if (firstIndexOf host 58).isSome then .error (strBytes "too many colons in address")
          else .ok (host, 0, 0)
      match hostJK with
      | .error e => .error e
      | .ok (host, j, k) =>
          if (firstIndexOf (hostport.drop j) 91).isSome then
            .error (strBytes "unexpected [ in address")
          else if (firstIndexOf (hostport.drop k) 93).isSome then
            .error (strBytes "unexpected ] in address")
          else .ok (host, hostport.drop (i + 1))

/-- `getClientIP` from the source: the `X-Real-IP` header verbatim when
non-empty (`realIP` empty models a missing or empty header), otherwise the
host part of `r.RemoteAddr`, or the whole `RemoteAddr` when it cannot be
split. -/
def getClientIP (realIP remoteAddr : List Nat) : List Nat :=
  if realIP ≠ [] then realIP
  else
    match splitHostPort remoteAddr with
    | .ok hp => hp.1
    | .error _ => remoteAddr

/-- The constant served for unknown identifiers. -/
def directPacContent : String :=
  "function FindProxyForURL(url, host) \x7b\n    return \"DIRECT\";\n\x7d"

/-- `pacHandlerWithID` from the source. Inputs model the request: the URL
path, the `X-Real-IP` header, `r.RemoteAddr`, the user agent, and whether a
websocket write would succeed. Returns the response, the registry state
afterwards, the log lines printed, and the websocket events. -/
def pacHandlerWithID (st : ServerState) (path realIP remoteAddr userAgent : List Nat)
    (writeOk : Bool) : HttpResponse × ServerState × List (List Nat) × List Event :=
  let id := trimPrefixBytes path (strBytes "/pac/")
  if id = [] then
    (httpError (strBytes "Missing id parameter") 400, st, [], [])
  else
    let clientIP := getClientIP realIP remoteAddr
    let logLine :=
      strBytes "Config " ++ id ++ strBytes " accessed by " ++ clientIP ++ strBytes " "
        ++ userAgent ++ strBytes "\n"
    match lookupConfig st.holder.configs id with
    | none =>
        ({ status := 200, contentType := some (strBytes "application/javascript"),
           body := strBytes directPacContent }, st, [logLine], [])
    | some config =>
        ({ status := 200, contentType := some (strBytes "application/javascript"),
           body := config.content }, st, [logLine],
          sendMessageToSocket config
            (strBytes "Config accessed by " ++ clientIP ++ strBytes " " ++ userAgent) writeOk)

/-- Run a sequence of `add` calls (one per identifier/content pair), the
linearization of N concurrent uploads; `none` when any call fails. -/
def addSeq : ServerState → List (List Nat × List Nat) → Option ServerState
  | st, [] => some st
  | st, (id, c) :: rest =>
      match add st id { content := c, conn := none } with
      | .ok st' => addSeq st' rest
      | .error _ => none

/-- Unwrap a successful `add`, keeping the old state on error (used to spell
out concrete operation sequences). -/
def okOr (st : ServerState) (r : Except (List Nat) ServerState) : ServerState :=
  match r with
  | .ok s => s
  | .error _ => st

/-- Whether an event is a websocket text frame write. -/
def isFrameSent : Event → Bool
  | Event.frameSent _ _ => true
  | _ => false

end Mitmpac

namespace Mitmpac

/-! Helper lemmas. -/

theorem hexTableGet_mem (n : Nat) : hexTableGet n ∈ hexTableBytes := by
  unfold hexTableGet
  split <;> decide

theorem hexEncodeToBytes_mem (bs : List Nat) : ∀ b ∈ hexEncodeToBytes bs, b ∈ hexTableBytes := by
  induction bs with
  | nil => intro b hb; simp [hexEncodeToBytes] at hb
  | cons x rest ih =>
      intro b hb
      simp only [hexEncodeToBytes, List.mem_cons] at hb
      rcases hb with h | h | h
      · rw [h]; exact hexTableGet_mem _
      · rw [h]; exact hexTableGet_mem _
      · exact ih b h

theorem hexEncodeToBytes_length (bs : List Nat) :
    (hexEncodeToBytes bs).length = 2 * bs.length := by
  induction bs with
  | nil => rfl
  | cons x rest ih => simp [hexEncodeToBytes, ih]; omega

theorem sha1_length (msg : List Nat) : (sha1 msg).length = 20 := by
  unfold sha1
  rcases (chunks64 (sha1Pad msg)).foldl processBlock sha1Init with ⟨a, b, c, d, e⟩
  simp [digestBytes, wordBytesBE]

theorem lookup_store_self (m : List (List Nat × ConfigHolder)) (k : List Nat)
    (v : ConfigHolder) : lookupConfig (storeConfig m k v) k = some v := by
  induction m with
  | nil => simp [storeConfig, lookupConfig]
  | cons kv rest ih =>
      obtain ⟨k', v'⟩ := kv
      by_cases h : k' = k
      · simp [storeConfig, lookupConfig, h]
      · simp [storeConfig, lookupConfig, h, ih]

theorem lookup_store_ne (m : List (List Nat × ConfigHolder)) (k q : List Nat)
    (v : ConfigHolder) (h : q ≠ k) :
    lookupConfig (storeConfig m k v) q = lookupConfig m q := by
  induction m with
  | nil =>
      have h' : ¬k = q := fun hh => h hh.symm
      simp [storeConfig, lookupConfig, h']
  | cons kv rest ih =>
      obtain ⟨k', v'⟩ := kv
      by_cases hk : k' = k
      · subst hk
        have h' : ¬k' = q := fun hh => h hh.symm
        simp [storeConfig, lookupConfig, h']
      · simp [storeConfig, lookupConfig, hk, ih]

theorem add_of_active (st : ServerState) (id : List Nat) (c2 e : ConfigHolder)
    (hl : lookupConfig st.holder.configs id = some e) (hc : e.conn ≠ none) :
    add st id c2 = .error activeConfigErr := by
  have hs : e.conn.isSome = true := Option.isSome_iff_ne_none.mpr hc
  unfold add
  rw [hl]
  simp [hs]

theorem add_of_fresh (st : ServerState) (id : List Nat) (config : ConfigHolder)
    (hl : lookupConfig st.holder.configs id = none) :
    add st id config =
      .ok { holder := { configs := storeConfig st.holder.configs id config,
                        activeConfigs := st.holder.activeConfigs + 1 },
            activeConfigsGauge := st.holder.activeConfigs + 1 } := by
  unfold add
  rw [hl]

theorem hasPrefixBytes_append (pre rest : List Nat) :
    hasPrefixBytes pre (pre ++ rest) = true := by
  induction pre with
  | nil => rfl
  | cons p ps ih => simp [hasPrefixBytes, ih]

theorem trimPrefixBytes_append (pre rest : List Nat) :
    trimPrefixBytes (pre ++ rest) pre = rest := by
  simp [trimPrefixBytes, hasPrefixBytes_append]

/-! Claim theorems. -/

/-- C1: when the registry entry for an identifier has an attached channel,
`add` fails with the `AlreadyActive` error and writes nothing, and
`uploadHandler` surfaces the failure as HTTP 409 with the registry state
(stored content, attached channel, `activeConfigs`) left exactly as it
was. -/
theorem add_active_rejected (st : ServerState) :
    (∀ id c2 e, get st id = some e → e.conn ≠ none →
        add st id c2 = .error activeConfigErr) ∧
    (∀ secret body e, secret ≠ [] →
        get st (generateID secret) = some e → e.conn ≠ none →
        uploadHandler st postMethod (.ok body) secret =
          (httpError activeConfigErr 409, st)) := by
  constructor
  · intro id c2 e hl hc
    exact add_of_active st id c2 e hl hc
  · intro secret body e hsec hl hc
    have hadd := add_of_active st (generateID secret) { content := body, conn := none } e hl hc
    unfold uploadHandler
    simp [hsec, hadd]

/-- Witness for C1 at a concrete active registry. -/
theorem add_active_rejected_witness :
    uploadHandler
        { holder := { configs := [(generateID (strBytes "abc"),
              { content := strBytes "X", conn := some 1 })], activeConfigs := 1 },
          activeConfigsGauge := 1 }
        postMethod (.ok (strBytes "Y")) (strBytes "abc") =
      (httpError activeConfigErr 409,
        { holder := { configs := [(generateID (strBytes "abc"),
              { content := strBytes "X", conn := some 1 })], activeConfigs := 1 },
          activeConfigsGauge := 1 }) :=
  (add_active_rejected _).2 (strBytes "abc") (strBytes "Y")
    { content := strBytes "X", conn := some 1 }
    (by decide) (by simp [get, lookupConfig]) (by decide)

/-- C2: from a registry without `id`, `add(id, c1)` then `add(id, c2)` both
succeed, the stored content ends up `c2` (replacement in place, channel
still unattached), and `activeConfigs` rises by exactly one over the whole
sequence — only the first, entry-creating call increments it. -/
theorem add_then_add_replaces (st : ServerState) (id c1 c2 : List Nat)
    (h : lookupConfig st.holder.configs id = none) :
    ∃ st1 st2,
      add st id { content := c1, conn := none } = .ok st1 ∧
      add st1 id { content := c2, conn := none } = .ok st2 ∧
      st1.holder.activeConfigs = st.holder.activeConfigs + 1 ∧
      get st2 id = some { content := c2, conn := none } ∧
      st2.holder.activeConfigs = st.holder.activeConfigs + 1 := by
  refine ⟨⟨⟨storeConfig st.holder.configs id ⟨c1, none⟩, st.holder.activeConfigs + 1⟩,
            st.holder.activeConfigs + 1⟩,
          ⟨⟨storeConfig (storeConfig st.holder.configs id ⟨c1, none⟩) id ⟨c2, none⟩,
            st.holder.activeConfigs + 1⟩, st.holder.activeConfigs + 1⟩,
          add_of_fresh st id _ h, ?_, rfl, ?_, rfl⟩
  · unfold add
    rw [lookup_store_self]
    rfl
  · unfold get
    exact lookup_store_self _ _ _

/-- Witness for C2 from the empty registry. -/
theorem add_then_add_replaces_witness :
    ∃ st1 st2,
      add initialServerState (strBytes "k") { content := strBytes "A", conn := none } = .ok st1 ∧
      add st1 (strBytes "k") { content := strBytes "B", conn := none } = .ok st2 ∧
      st1.holder.activeConfigs = initialServerState.holder.activeConfigs + 1 ∧
      get st2 (strBytes "k") = some { content := strBytes "B", conn := none } ∧
      st2.holder.activeConfigs = initialServerState.holder.activeConfigs + 1 :=
  add_then_add_replaces initialServerState (strBytes "k") (strBytes "A") (strBytes "B")
    (by decide)

set_option maxRecDepth 10000 in
/-- C3: the claimed invariant `activeConfigs = number of entries` does not
survive every operation sequence: after add, two websocket attaches for the
same secret, and the two deletes their handlers run on exit, the second
`delete` finds the key already absent, leaves the map unchanged but still
decrements the counter, ending at `-1` with an empty map. -/
theorem counter_invariant_violated_by_absent_delete :
    (let id := generateID (strBytes "abc")
     let st1 := okOr initialServerState
        (add initialServerState id { content := strBytes "X", conn := none })
     let st2 := (wsAttach st1 (strBytes "abc") 1).1
     let st3 := (wsAttach st2 (strBytes "abc") 2).1
     let st4 := (delete st3 id).1
     let st5 := (delete st4 id).1
     st3.holder.activeConfigs = 1 ∧ st3.holder.configs.length = 1 ∧
     st4.holder.activeConfigs = 0 ∧ st4.holder.configs.length = 0 ∧
     st5.holder.activeConfigs = -1 ∧ st5.holder.configs.length = 0) := by
  decide

/-- C4: `delete` on an identifier that is not present is not a behavioral
no-op: the map stays unchanged but `activeConfigs` and the exported gauge
both drop to `-1`, so the resulting state differs from the initial one. -/
theorem delete_absent_not_noop :
    (delete initialServerState (strBytes "x")).1 =
      { holder := { configs := [], activeConfigs := -1 }, activeConfigsGauge := -1 } ∧
    (delete initialServerState (strBytes "x")).1 ≠ initialServerState ∧
    (delete initialServerState (strBytes "x")).2 = [] := by
  decide

/-- C5: the sequential (linearized) part of the concurrency claim: an
interleaving-free run of `add` calls with pairwise-distinct fresh
identifiers succeeds entirely and raises `activeConfigs` by exactly the
number of calls. The claimed critical section itself does not exist in the
code: `ConfigsHolder` has no lock. -/
theorem addSeq_distinct_fresh (ps : List (List Nat × List Nat)) :
    ∀ st : ServerState, (ps.map Prod.fst).Nodup →
      (∀ p ∈ ps, lookupConfig st.holder.configs p.1 = none) →
      ∃ st', addSeq st ps = some st' ∧
        st'.holder.activeConfigs = st.holder.activeConfigs + ps.length := by
  induction ps with
  | nil =>
      intro st _ _
      exact ⟨st, rfl, by simp⟩
  | cons p rest ih =>
      intro st hnd hf
      obtain ⟨id, c⟩ := p
      have hid : lookupConfig st.holder.configs id = none := hf (id, c) (by simp)
      have hstep : addSeq st ((id, c) :: rest) =
          addSeq ⟨⟨storeConfig st.holder.configs id ⟨c, none⟩,
            st.holder.activeConfigs + 1⟩, st.holder.activeConfigs + 1⟩ rest := by
        simp only [addSeq]
        rw [add_of_fresh st id _ hid]
      have hnd' : (rest.map Prod.fst).Nodup := (List.nodup_cons.mp (by simpa using hnd)).2
      have hid_notin : id ∉ rest.map Prod.fst := (List.nodup_cons.mp (by simpa using hnd)).1
      have hf' : ∀ p' ∈ rest,
          lookupConfig (storeConfig st.holder.configs id ⟨c, none⟩) p'.1 = none := by
        intro p' hp'
        have hne : p'.1 ≠ id := by
          intro hEq
          exact hid_notin (hEq ▸ List.mem_map_of_mem Prod.fst hp')
        rw [lookup_store_ne _ _ _ _ hne]
        exact hf p' (List.mem_cons_of_mem _ hp')
      obtain ⟨st', hrun, hcount⟩ := ih ⟨⟨storeConfig st.holder.configs id ⟨c, none⟩,
        st.holder.activeConfigs + 1⟩, st.holder.activeConfigs + 1⟩ hnd' hf'
      refine ⟨st', by rw [hstep]; exact hrun, ?_⟩
      rw [hcount]
      simp
      ring

/-- Witness for C5 with two distinct fresh identifiers. -/
theorem addSeq_distinct_fresh_witness :
    ∃ st', addSeq initialServerState
        [(strBytes "a", strBytes "X"), (strBytes "b", strBytes "Y")] = some st' ∧
      st'.holder.activeConfigs = initialServerState.holder.activeConfigs +
        ([(strBytes "a", strBytes "X"), (strBytes "b", strBytes "Y")] :
          List (List Nat × List Nat)).length :=
  addSeq_distinct_fresh _ initialServerState (by decide) (by decide)

set_option maxRecDepth 10000 in
/-- C6: identifier derivation is the pure function mapping a secret to the
lowercase-hex SHA-1 of its bytes: the result is 40 bytes long, drawn from
the lowercase hex alphabet, equal secrets give equal identifiers, any
200 response of `uploadHandler` carries exactly `generateID secret` as its
body, and on the spec's concrete scenario the id is the SHA-1 of "abc". -/
theorem generateID_spec (s : List Nat) :
    generateID s = hexEncodeToBytes (sha1 s) ∧
    (generateID s).length = 40 ∧
    (∀ b ∈ generateID s, b ∈ hexTableBytes) ∧
    (∀ s', s = s' → generateID s = generateID s') ∧
    (∀ st method bodyRead, (uploadHandler st method bodyRead s).1.status = 200 →
        (uploadHandler st method bodyRead s).1.body = generateID s) ∧
    generateID (strBytes "abc") =
      strBytes "a9993e364706816aba3e25717850c26c9cd0d89d" := by
  refine ⟨rfl, ?_, ?_, ?_, ?_, by decide⟩
  · show (hexEncodeToBytes (sha1 s)).length = 40
    rw [hexEncodeToBytes_length, sha1_length]
  · exact hexEncodeToBytes_mem (sha1 s)
  · intro s' hss
    exact congrArg generateID hss
  · intro st method bodyRead h
    unfold uploadHandler at h ⊢
    by_cases hm : method ≠ postMethod
    · rw [if_pos hm] at h
      simp [httpError] at h
    · rw [if_neg hm] at h ⊢
      cases bodyRead with
      | error e =>
          dsimp only at h
          simp [httpError] at h
      | ok content =>
          dsimp only at h ⊢
          by_cases hsec : s = []
          · rw [if_pos hsec] at h
            simp [httpError] at h
          · rw [if_neg hsec] at h ⊢
            cases hadd : add st (generateID s) { content := content, conn := none } with
            | error e =>
                rw [hadd] at h
                simp [httpError] at h
            | ok st' =>
                rfl

/-- Witness for C6's hypotheses on the spec's concrete upload scenario. -/
theorem generateID_spec_witness :
    (uploadHandler initialServerState postMethod (.ok (strBytes "X")) (strBytes "abc")).1.body =
      generateID (strBytes "abc") :=
  (generateID_spec (strBytes "abc")).2.2.2.2.1 initialServerState postMethod
    (.ok (strBytes "X")) (by rfl)

/-- C7: `GET /pac/{id}` for an identifier with no registry entry responds
200 with content type `application/javascript` and exactly the fallback
DIRECT script as the body, leaves the registry state untouched, and sends
no websocket notification (the only side effect is the access log line). -/
theorem pac_unknown_id_fallback (st : ServerState) (id realIP remoteAddr ua : List Nat)
    (writeOk : Bool) (hne : id ≠ [])
    (habs : lookupConfig st.holder.configs id = none) :
    pacHandlerWithID st (strBytes "/pac/" ++ id) realIP remoteAddr ua writeOk =
      ({ status := 200, contentType := some (strBytes "application/javascript"),
         body := strBytes directPacContent }, st,
        [strBytes "Config " ++ id ++ strBytes " accessed by " ++ getClientIP realIP remoteAddr
          ++ strBytes " " ++ ua ++ strBytes "\n"], []) := by
  unfold pacHandlerWithID
  rw [trimPrefixBytes_append]
  rw [if_neg hne, habs]

/-- Witness for C7 with a concrete unknown identifier. -/
theorem pac_unknown_id_fallback_witness :
    pacHandlerWithID initialServerState (strBytes "/pac/" ++ strBytes "x") (strBytes "9.9.9.9")
        (strBytes "1.2.3.4:80") (strBytes "curl") true =
      ({ status := 200, contentType := some (strBytes "application/javascript"),
         body := strBytes directPacContent }, initialServerState,
        [strBytes "Config " ++ strBytes "x" ++ strBytes " accessed by "
          ++ getClientIP (strBytes "9.9.9.9") (strBytes "1.2.3.4:80") ++ strBytes " "
          ++ strBytes "curl" ++ strBytes "\n"], []) :=
  pac_unknown_id_fallback initialServerState (strBytes "x") (strBytes "9.9.9.9")
    (strBytes "1.2.3.4:80") (strBytes "curl") true (by decide) (by decide)

/-- C8: a websocket open whose (non-empty) secret derives an identifier
without a registry entry gets exactly one explanatory text frame, the
connection is closed immediately, the handler does not proceed to its read
loop, and the registry state is completely unchanged (no entry created). -/
theorem ws_unknown_secret_rejected (st : ServerState) (secret : List Nat) (conn : Nat)
    (hs : secret ≠ [])
    (habs : lookupConfig st.holder.configs (generateID secret) = none) :
    wsAttach st secret conn =
      (st, [Event.frameSent conn (strBytes "Invalid X-Secret"), Event.connClosed conn],
        false) := by
  unfold wsAttach
  rw [if_neg hs]
  dsimp only
  rw [habs]

/-- Witness for C8 against the empty registry. -/
theorem ws_unknown_secret_rejected_witness :
    wsAttach initialServerState (strBytes "abc") 7 =
      (initialServerState,
        [Event.frameSent 7 (strBytes "Invalid X-Secret"), Event.connClosed 7], false) :=
  ws_unknown_secret_rejected initialServerState (strBytes "abc") 7 (by decide) rfl

/-- C9: `sendMessageToSocket` is a no-op without an attached channel; with
one it emits exactly one text frame carrying the message, bracketed by the
entry's mutex acquisition and release; a failed write only adds a log
entry — there is never a retry (the frame count stays at most one), never a
`connClosed` event, and the function touches no registry state. -/
theorem notify_writes_once_no_close (holder : ConfigHolder) (message : List Nat)
    (writeOk : Bool) :
    (holder.conn = none → sendMessageToSocket holder message writeOk = []) ∧
    (∀ c, holder.conn = some c →
        sendMessageToSocket holder message writeOk =
          [Event.lockAcquired, Event.frameSent c message]
            ++ (if writeOk then []
                else [Event.logged (strBytes "Failed to send message to websocket")])
            ++ [Event.lockReleased]) ∧
    (∀ c, Event.connClosed c ∉ sendMessageToSocket holder message writeOk) ∧
    ((sendMessageToSocket holder message writeOk).countP isFrameSent ≤ 1) := by
  refine ⟨?_, ?_, ?_, ?_⟩
  · intro h
    simp [sendMessageToSocket, h]
  · intro c h
    simp [sendMessageToSocket, h]
  · intro c
    cases h : holder.conn with
    | none => simp [sendMessageToSocket, h]
    | some c' => cases writeOk <;> simp [sendMessageToSocket, h]
  · cases h : holder.conn with
    | none => simp [sendMessageToSocket, h]
    | some c' => cases writeOk <;> simp [sendMessageToSocket, h, isFrameSent, List.countP_cons]

/-- Witness for C9 on an attached entry whose write fails. -/
theorem notify_writes_once_no_close_witness :
    sendMessageToSocket { content := [], conn := some 5 } (strBytes "hi") false =
      [Event.lockAcquired, Event.frameSent 5 (strBytes "hi")]
        ++ (if false then []
            else [Event.logged (strBytes "Failed to send message to websocket")])
        ++ [Event.lockReleased] :=
  (notify_writes_once_no_close { content := [], conn := some 5 } (strBytes "hi") false).2.1
    5 rfl

/-- C10: the requester address is the `X-Real-IP` header verbatim when it is
non-empty, otherwise the host part of the remote address, or the whole
remote address when it cannot be split into host and port; and on the PAC
endpoint that same value is what appears in the access log line and in the
pushed notification text. -/
theorem client_ip_resolution (realIP remoteAddr : List Nat) :
    (realIP ≠ [] → getClientIP realIP remoteAddr = realIP) ∧
    (realIP = [] → ∀ host port, splitHostPort remoteAddr = .ok (host, port) →
        getClientIP realIP remoteAddr = host) ∧
    (realIP = [] → ∀ e, splitHostPort remoteAddr = .error e →
        getClientIP realIP remoteAddr = remoteAddr) ∧
    (∀ st : ServerState, ∀ id ua : List Nat, ∀ writeOk : Bool, ∀ config : ConfigHolder,
        id ≠ [] → lookupConfig st.holder.configs id = some config →
        pacHandlerWithID st (strBytes "/pac/" ++ id) realIP remoteAddr ua writeOk =
          ({ status := 200, contentType := some (strBytes "application/javascript"),
             body := config.content }, st,
            [strBytes "Config " ++ id ++ strBytes " accessed by "
              ++ getClientIP realIP remoteAddr ++ strBytes " " ++ ua ++ strBytes "\n"],
            sendMessageToSocket config
              (strBytes "Config accessed by " ++ getClientIP realIP remoteAddr
                ++ strBytes " " ++ ua) writeOk)) := by
  refine ⟨?_, ?_, ?_, ?_⟩
  · intro h
    simp [getClientIP, h]
  · intro h host port hsp
    simp [getClientIP, h, hsp]
  · intro h e hsp
    simp [getClientIP, h, hsp]
  · intro st id ua writeOk config hne hl
    unfold pacHandlerWithID
    rw [trimPrefixBytes_append]
    rw [if_neg hne, hl]

/-- Witness for C10: no header, a splittable remote address, and a served
entry whose notification carries the extracted host. -/
theorem client_ip_resolution_witness :
    getClientIP [] (strBytes "1.2.3.4:80") = strBytes "1.2.3.4" :=
  (client_ip_resolution [] (strBytes "1.2.3.4:80")).2.1 rfl (strBytes "1.2.3.4")
    (strBytes "80") (by rfl)

end Mitmpac
